import Mathlib

/-!
# Verification of the Loan Management API (`app.js`)

A shallow embedding of the Express application in `app.js`: an in-memory
loan store with JWT-style authentication, role-based authorization, and a
role-sensitive response shaper.  JavaScript objects are modelled as Lean
structures; JavaScript's `undefined`-or-value fields as `Option`; string
truthiness (`if (x)`) is made explicit; errors thrown through `next(error)`
are values funnelled to the global `errorHandler`.

The repository ships `app.js` but not `data/loans.json` / `data/staffs.json`;
the shapes of `LoanRecord` and `StaffRecord` are therefore taken from the
specification's data model (id, status, maturityDate, applicant with email /
name / totalLoan, plus arbitrary further fields kept in an `other` list).
-/

namespace LoanApi

/-- JavaScript truthiness of a possibly-absent string: `undefined` and the
empty string are falsy, every other string is truthy.  Mirrors `if (x)` on a
value that is either a string or `undefined`. -/
def jsTruthyStr : Option String → Bool
  | none => false
  | some s => s ≠ ""

/-- JavaScript `a || d` for a possibly-absent number `a` against a default
`d`: `undefined` and `0` are falsy.  Mirrors `err.statusCode || 500`. -/
def jsOrNat : Option Nat → Nat → Nat
  | none, d => d
  | some n, d => if n = 0 then d else n

/-- JavaScript `s || d` for a string against a default string. Mirrors
`err.message || 'Internal Server Error'`. -/
def jsOrStr (s d : String) : String :=
  if s = "" then d else s

/-- A JavaScript `Error` as thrown in `app.js`: its `name`, its `message`,
and the optionally attached `statusCode` property. -/
structure JsError where
  name : String
  message : String
  statusCode : Option Nat
deriving Repr, DecidableEq

/-- The observable part of an HTTP response: status code and the `message`
field of the JSON body. -/
structure Response where
  status : Nat
  message : String
deriving Repr, DecidableEq

/-- The global error handler (`errorHandler`, app.js:32-43): responds with
`err.statusCode || 500` and `err.message || 'Internal Server Error'`. -/
def errorHandler (err : JsError) : Response :=
  { status := jsOrNat err.statusCode 500
  , message := jsOrStr err.message "Internal Server Error" }

/-- The applicant sub-object of a loan record.  `totalLoan = none` models the
absence of the `totalLoan` key (JavaScript `delete` removes the key); `other`
holds any further fields of the JSON object. -/
structure Applicant where
  name : String
  email : String
  totalLoan : Option Int
  other : List (String × String)
deriving Repr, DecidableEq

/-- A loan record of the store.  `maturityDate` is the timestamp obtained by
`new Date(loan.maturityDate)` (epoch milliseconds); `other` holds any further
fields of the JSON object. -/
structure Loan where
  id : String
  status : String
  maturityDate : Int
  applicant : Applicant
  other : List (String × String)
deriving Repr, DecidableEq

/-- The response shaper (`processLoansByRole`, app.js:81-93) in value
semantics: each loan is shallow-copied; for role `staff` the applicant is
copied with its `totalLoan` key deleted; for every other role the record is
passed through unchanged. -/
def processLoansByRole (loans : List Loan) (userRole : String) : List Loan :=
  loans.map (fun loan =>
    if userRole = "staff" then
      { loan with applicant := { loan.applicant with totalLoan := none } }
    else
      loan)

/-- C1: shaping for a `staff` identity removes the `totalLoan` key from every
record's applicant, while shaping for `admin` or `superAdmin` returns every
record with every field unchanged. -/
theorem processLoansByRole_staff_hides_totalLoan_admin_keeps (loans : List Loan) :
    (∀ l ∈ processLoansByRole loans "staff", l.applicant.totalLoan = none)
    ∧ processLoansByRole loans "admin" = loans
    ∧ processLoansByRole loans "superAdmin" = loans := by
  refine ⟨?_, ?_, ?_⟩
  · intro l hl
    simp only [processLoansByRole, List.mem_map] at hl
    obtain ⟨loan, -, hmap⟩ := hl
    simp only [reduceIte] at hmap
    subst hmap
    rfl
  · simp [processLoansByRole]
  · simp [processLoansByRole]

/-- The identity claims decoded from a verified session token:
`{id, name, email, role}`. -/
structure Identity where
  id : Nat
  name : String
  email : String
  role : String
deriving Repr, DecidableEq

/-- The token-bearing part of an inbound request: the cookie named `token`
(`req.cookies.token`) and the `Authorization` header
(`req.headers.authorization`), each possibly absent. -/
structure AuthReq where
  cookieToken : Option String
  authorization : Option String
deriving Repr, DecidableEq

/-- Token extraction (app.js:48):
`req.cookies.token || req.headers.authorization?.split(' ')[1]`.
The cookie wins when truthy; otherwise the second word of the
`Authorization` header (if any) is used. -/
def extractToken (r : AuthReq) : Option String :=
  if jsTruthyStr r.cookieToken then r.cookieToken
  else r.authorization.bind (fun a => (a.splitOn " ").get? 1)

/-- The catch branch of `authMiddleware` (app.js:60-63): an error named
`JsonWebTokenError` is rewritten to a 401 `Unauthorized - Invalid token`;
every other error passes through untouched. -/
def mapJwtError (e : JsError) : JsError :=
  if e.name = "JsonWebTokenError" then
    { e with message := "Unauthorized - Invalid token", statusCode := some 401 }
  else e

/-- Modelled from the spec: the Token Service (`jwt.verify`) is an external
collaborator; its observable interface is that a signature/format failure
throws an error whose `name` is `JsonWebTokenError`, with no `statusCode`
property. -/
def jsonWebTokenError (msg : String) : JsError :=
  { name := "JsonWebTokenError", message := msg, statusCode := none }

/-- Modelled from the spec: the Token Service's expiry failure throws the
`jsonwebtoken` library's `TokenExpiredError`, whose `name` property is
`TokenExpiredError` (not `JsonWebTokenError`) and whose message is
`jwt expired`, with no `statusCode` property. -/
def tokenExpiredError : JsError :=
  { name := "TokenExpiredError", message := "jwt expired", statusCode := none }

/-- The authentication middleware (`authMiddleware`, app.js:46-66),
parameterised by the Token Service's verification function: extract the
token; absent/empty token throws the 401 no-token error; otherwise verify,
bind the decoded identity on success, and pass any thrown error through the
catch branch (`mapJwtError`) to `next(error)`. -/
def authMiddleware (r : AuthReq)
    (verify : String → Except JsError Identity) : Except JsError Identity :=
  let token := extractToken r
  if jsTruthyStr token = false then
    .error (mapJwtError
      { name := "Error", message := "Unauthorized - No token provided", statusCode := some 401 })
  else
    match verify (token.getD "") with
    | .ok decoded => .ok decoded
    | .error e => .error (mapJwtError e)

/-- The response a protected route produces when the auth gate fails: the
error forwarded by `authMiddleware` rendered by `errorHandler`; `none` when
authentication succeeded. -/
def authFailureResponse (r : AuthReq)
    (verify : String → Except JsError Identity) : Option Response :=
  match authMiddleware r verify with
  | .error e => some (errorHandler e)
  | .ok _ => none

/-- C2 (code bug): a token whose verification fails with the library's
expiry error is answered with status 500 and message `jwt expired`, not 401:
the catch branch only remaps errors named `JsonWebTokenError`, and the
expiry error is named `TokenExpiredError`.  A signature/format failure is
remapped to 401 `Unauthorized - Invalid token` as the claim states, distinct
from the no-token message. -/
theorem authMiddleware_expired_token_yields_500 :
    authFailureResponse { cookieToken := some "expired.tok", authorization := none }
        (fun _ => .error tokenExpiredError)
      = some { status := 500, message := "jwt expired" }
    ∧ authFailureResponse { cookieToken := some "bad.tok", authorization := none }
        (fun _ => .error (jsonWebTokenError "invalid signature"))
      = some { status := 401, message := "Unauthorized - Invalid token" }
    ∧ "Unauthorized - Invalid token" ≠ "Unauthorized - No token provided" := by
  refine ⟨by decide, by decide, by decide⟩

/-- C9: the auth gate takes the cookie named `token` when it is set, falls
back to the second word of the `Authorization` header when the cookie is
absent, and when both are absent fails with the 401 no-token response
without consulting the verifier at all (the outcome is the same for every
verification function). -/
theorem authMiddleware_cookie_precedence_and_no_token (r : AuthReq)
    (verify verify2 : String → Except JsError Identity) :
    (jsTruthyStr r.cookieToken = true → extractToken r = r.cookieToken)
    ∧ (r.cookieToken = none →
        extractToken r = r.authorization.bind (fun a => (a.splitOn " ").get? 1))
    ∧ (r.cookieToken = none → r.authorization = none →
        authMiddleware r verify = authMiddleware r verify2
        ∧ authFailureResponse r verify
          = some { status := 401, message := "Unauthorized - No token provided" }) := by
  refine ⟨?_, ?_, ?_⟩
  · intro hc
    simp [extractToken, hc]
  · intro hc
    simp [extractToken, hc, jsTruthyStr]
  · intro hc ha
    constructor
    · simp [authMiddleware, extractToken, hc, ha, jsTruthyStr]
    · simp [authFailureResponse, authMiddleware, extractToken, hc, ha, jsTruthyStr,
        mapJwtError, errorHandler, jsOrNat, jsOrStr]

/-- Witness for C9 at a concrete request with neither cookie nor header. -/
theorem authMiddleware_cookie_precedence_and_no_token_witness :
    authFailureResponse { cookieToken := none, authorization := none }
        (fun _ => .error tokenExpiredError)
      = some { status := 401, message := "Unauthorized - No token provided" } :=
  ((authMiddleware_cookie_precedence_and_no_token
      { cookieToken := none, authorization := none }
      (fun _ => .error tokenExpiredError)
      (fun _ => .ok { id := 1, name := "n", email := "e", role := "staff" })).2.2
    rfl rfl).2

/-- The `GET /api/loans` handler body (app.js:161-184): optionally filter by
the `status` query parameter — only when it is truthy (`if (status)`), i.e.
present and non-empty — then shape by role. -/
def getLoansRoute (loans : List Loan) (statusParam : Option String)
    (role : String) : List Loan :=
  let filteredLoans :=
    if jsTruthyStr statusParam then
      loans.filter (fun loan => some loan.status = statusParam)
    else loans
  processLoansByRole filteredLoans role

/-- The `GET /api/expired-loans` selection (app.js:191-194): the loans whose
`maturityDate` parses to an instant strictly before the current date. -/
def expiredLoans (loans : List Loan) (currentDate : Int) : List Loan :=
  loans.filter (fun loan => loan.maturityDate < currentDate)

/-- JavaScript `String.prototype.toLowerCase`, modelled character-wise: each
character is mapped to its lower-case form (the simple case mapping covers
the ASCII emails this system compares). -/
def jsToLower (s : String) : String :=
  ⟨s.data.map Char.toLower⟩

/-- The `GET /api/user-loans/:userEmail` selection (app.js:216-218): the
loans whose applicant email equals the path parameter case-insensitively
(`loan.applicant.email.toLowerCase() === userEmail.toLowerCase()`). -/
def userLoans (loans : List Loan) (userEmail : String) : List Loan :=
  loans.filter (fun loan => jsToLower loan.applicant.email = jsToLower userEmail)

/-- The `GET /api/user-loans/:userEmail` handler body (app.js:212-233):
select by email, then shape by role. -/
def userLoansRoute (loans : List Loan) (userEmail role : String) : List Loan :=
  processLoansByRole (userLoans loans userEmail) role

/-- C7: before shaping, the expired-loans query returns exactly the loans of
the dataset whose maturity instant is strictly before the current time:
membership in the result is equivalent to membership in the dataset together
with `maturityDate < t`, and the result is a subsequence of the dataset (so
no other records appear). -/
theorem expiredLoans_exactly_matured (loans : List Loan) (t : Int) :
    (∀ l : Loan, l ∈ expiredLoans loans t ↔ l ∈ loans ∧ l.maturityDate < t)
    ∧ (expiredLoans loans t).Sublist loans := by
  constructor
  · intro l
    simp [expiredLoans, List.mem_filter]
  · exact List.filter_sublist loans

/-- C10: a present-but-empty `status` query parameter is falsy, so the
handler skips the filter entirely: the result is the full shaped dataset,
the same as with no `status` parameter at all. -/
theorem getLoansRoute_empty_status_returns_all (loans : List Loan) (role : String) :
    getLoansRoute loans (some "") role = processLoansByRole loans role
    ∧ getLoansRoute loans (some "") role = getLoansRoute loans none role := by
  constructor <;> simp [getLoansRoute, jsTruthyStr]

/-- C8: the user-loans route is case-insensitive — two path parameters with
the same lower-casing produce identical responses — and it selects exactly
the loans whose `applicant.email` matches the parameter case-insensitively. -/
theorem userLoansRoute_case_insensitive (loans : List Loan) (role : String)
    (e1 e2 : String) (hcase : jsToLower e1 = jsToLower e2) :
    userLoansRoute loans e1 role = userLoansRoute loans e2 role
    ∧ (∀ l : Loan, l ∈ userLoans loans e1
        ↔ l ∈ loans ∧ jsToLower l.applicant.email = jsToLower e1) := by
  constructor
  · simp only [userLoansRoute, userLoans, hcase]
  · intro l
    simp [userLoans, List.mem_filter]

/-- Witness for C8 at the spec's example pair of emails. -/
theorem userLoansRoute_case_insensitive_witness :
    (jsToLower "Foo@Bar.com" = jsToLower "foo@bar.com")
    ∧ userLoansRoute [] "Foo@Bar.com" "staff" = userLoansRoute [] "foo@bar.com" "staff" :=
  ⟨by decide, (userLoansRoute_case_insensitive [] "staff" "Foo@Bar.com" "foo@bar.com"
      (by decide)).1⟩

/-- The role-authorization middleware (`authorizeRoles`, app.js:69-78):
given the allowed role list of the route and the authenticated user's role,
either pass (`none`) or forward a 403 Forbidden error. -/
def authorizeRoles (roles : List String) (userRole : String) : Option JsError :=
  if roles.contains userRole then none
  else some { name := "Error"
            , message := "Forbidden - Insufficient permissions"
            , statusCode := some 403 }

/-- The `DELETE /api/loans/:loanId` route after authentication
(app.js:236-257): the `authorizeRoles('superAdmin')` gate, then the handler,
which only checks existence of the id (`loansData.some(...)`) and
acknowledges — no statement ever removes the record, so the handler returns
the store as it was.  The result is the HTTP response paired with the loan
store after the request. -/
def deleteLoanRoute (store : List Loan) (userRole : String)
    (loanId : String) : Response × List Loan :=
  match authorizeRoles ["superAdmin"] userRole with
  | some err => (errorHandler err, store)
  | none =>
    if store.any (fun loan => loan.id = loanId) then
      ({ status := 200, message := "Loan with ID " ++ loanId ++ " has been deleted" }, store)
    else
      (errorHandler { name := "Error", message := "Loan not found", statusCode := some 404 },
        store)

/-- C4: a superAdmin delete of an existing loan id answers 200 with the
success envelope, yet the store is left exactly as it was — in particular a
subsequent unfiltered `GET /api/loans` for the same superAdmin still lists a
loan with that id. -/
theorem deleteLoanRoute_acknowledges_without_removing (store : List Loan)
    (loanId : String) (hexists : ∃ l ∈ store, l.id = loanId) :
    (deleteLoanRoute store "superAdmin" loanId).1
      = { status := 200, message := "Loan with ID " ++ loanId ++ " has been deleted" }
    ∧ (deleteLoanRoute store "superAdmin" loanId).2 = store
    ∧ ∃ l ∈ getLoansRoute (deleteLoanRoute store "superAdmin" loanId).2 none "superAdmin",
        l.id = loanId := by
  have hany : store.any (fun loan => loan.id = loanId) = true := by
    obtain ⟨l, hl, hid⟩ := hexists
    exact List.any_eq_true.mpr ⟨l, hl, by simp [hid]⟩
  refine ⟨?_, ?_, ?_⟩
  · simp [deleteLoanRoute, authorizeRoles, hany]
  · simp [deleteLoanRoute, authorizeRoles, hany]
  · obtain ⟨l, hl, hid⟩ := hexists
    refine ⟨l, ?_, hid⟩
    simp [deleteLoanRoute, authorizeRoles, hany, getLoansRoute, jsTruthyStr,
      processLoansByRole]
    exact hl

/-- Witness for C4 on a one-loan store. -/
theorem deleteLoanRoute_acknowledges_without_removing_witness :
    (deleteLoanRoute
        [{ id := "900199", status := "active", maturityDate := 0
         , applicant := { name := "A", email := "a@b.c", totalLoan := some 5000, other := [] }
         , other := [] }] "superAdmin" "900199").1
      = { status := 200, message := "Loan with ID 900199 has been deleted" }
    ∧ (deleteLoanRoute
        [{ id := "900199", status := "active", maturityDate := 0
         , applicant := { name := "A", email := "a@b.c", totalLoan := some 5000, other := [] }
         , other := [] }] "superAdmin" "900199").2
      = [{ id := "900199", status := "active", maturityDate := 0
         , applicant := { name := "A", email := "a@b.c", totalLoan := some 5000, other := [] }
         , other := [] }] := by
  have h := deleteLoanRoute_acknowledges_without_removing
    [{ id := "900199", status := "active", maturityDate := 0
     , applicant := { name := "A", email := "a@b.c", totalLoan := some 5000, other := [] }
     , other := [] }] "900199"
    ⟨_, List.mem_singleton.mpr rfl, rfl⟩
  exact ⟨h.1, h.2.1⟩

/-- C5: a delete request authenticated as `staff` or `admin` is refused with
403 Forbidden, and that refusal is computed without consulting the store (the
response is the same for every store); a `superAdmin` delete of an id that no
stored loan carries is refused with 404 Not Found. -/
theorem deleteLoanRoute_forbidden_and_not_found (store : List Loan)
    (userRole loanId : String) :
    (userRole = "staff" ∨ userRole = "admin" →
      (deleteLoanRoute store userRole loanId).1
        = { status := 403, message := "Forbidden - Insufficient permissions" }
      ∧ ∀ store2 : List Loan,
          (deleteLoanRoute store2 userRole loanId).1
            = (deleteLoanRoute store userRole loanId).1)
    ∧ ((∀ l ∈ store, l.id ≠ loanId) →
        (deleteLoanRoute store "superAdmin" loanId).1
          = { status := 404, message := "Loan not found" }) := by
  constructor
  · rintro (rfl | rfl)
    · exact ⟨by simp [deleteLoanRoute, authorizeRoles, errorHandler, jsOrNat, jsOrStr],
        fun store2 => by simp [deleteLoanRoute, authorizeRoles]⟩
    · exact ⟨by simp [deleteLoanRoute, authorizeRoles, errorHandler, jsOrNat, jsOrStr],
        fun store2 => by simp [deleteLoanRoute, authorizeRoles]⟩
  · intro hnone
    have hany : store.any (fun loan => loan.id = loanId) = false := by
      rw [List.any_eq_false]
      intro l hl
      simp [hnone l hl]
    simp [deleteLoanRoute, authorizeRoles, hany, errorHandler, jsOrNat, jsOrStr]

/-- Witness for C5: staff is refused with 403 on an empty store; superAdmin
deleting an unknown id on an empty store gets 404. -/
theorem deleteLoanRoute_forbidden_and_not_found_witness :
    (deleteLoanRoute [] "staff" "900199").1
      = { status := 403, message := "Forbidden - Insufficient permissions" }
    ∧ (deleteLoanRoute [] "superAdmin" "900199").1
      = { status := 404, message := "Loan not found" } :=
  ⟨((deleteLoanRoute_forbidden_and_not_found [] "staff" "900199").1 (Or.inl rfl)).1,
    (deleteLoanRoute_forbidden_and_not_found [] "superAdmin" "900199").2
      (by intro l hl; simp at hl)⟩

/-- A staff record of the credential store (`data/staffs.json`), per the
spec's data model: `{id, name, email, password, role}`. -/
structure Staff where
  id : Nat
  name : String
  email : String
  password : String
  role : String
deriving Repr, DecidableEq

/-- The `POST /api/login` handler (app.js:96-150), up to its observable
status and message: reject a missing/empty email or password with 400; look
the email up in the credential store (`staffsData.find`, exact match);
unknown email and wrong password both answer 401 with the same generic
message; otherwise the login succeeds. -/
def login (staffs : List Staff) (email password : Option String) : Response :=
  if jsTruthyStr email = false ∨ jsTruthyStr password = false then
    errorHandler { name := "Error", message := "Email and password are required"
                 , statusCode := some 400 }
  else
    match staffs.find? (fun s => some s.email = email) with
    | none =>
      errorHandler { name := "Error", message := "Invalid credentials", statusCode := some 401 }
    | some staff =>
      if password = some staff.password then
        { status := 200, message := "Login successful" }
      else
        errorHandler { name := "Error", message := "Invalid credentials", statusCode := some 401 }

/-- C6: a login request missing email or password is refused with 400; with
both present, an unknown email and a known email with a wrong password are
both refused with 401 carrying the identical generic message
`Invalid credentials`. -/
theorem login_missing_fields_and_generic_401 (staffs : List Staff)
    (email password : Option String) :
    ((email = none ∨ password = none) →
      login staffs email password
        = { status := 400, message := "Email and password are required" })
    ∧ (jsTruthyStr email = true → jsTruthyStr password = true →
        ((staffs.find? (fun s => some s.email = email) = none →
          login staffs email password
            = { status := 401, message := "Invalid credentials" })
        ∧ (∀ staff : Staff, staffs.find? (fun s => some s.email = email) = some staff →
            password ≠ some staff.password →
            login staffs email password
              = { status := 401, message := "Invalid credentials" }))) := by
  constructor
  · rintro (rfl | rfl)
    · simp [login, jsTruthyStr, errorHandler, jsOrNat, jsOrStr]
    · simp [login, jsTruthyStr, errorHandler, jsOrNat, jsOrStr]
  · intro he hp
    constructor
    · intro hfind
      simp [login, he, hp, hfind, errorHandler, jsOrNat, jsOrStr]
    · intro staff hfind hpw
      simp [login, he, hp, hfind, hpw, errorHandler, jsOrNat, jsOrStr]

/-- Witness for C6 on a one-record credential store: missing password gives
400; an unknown email and a wrong password each give the same 401 response. -/
theorem login_missing_fields_and_generic_401_witness :
    login [{ id := 1, name := "Edwin John", email := "edwinjohn@example.com"
           , password := "12345Pass", role := "staff" }]
        (some "edwinjohn@example.com") none
      = { status := 400, message := "Email and password are required" }
    ∧ login [{ id := 1, name := "Edwin John", email := "edwinjohn@example.com"
             , password := "12345Pass", role := "staff" }]
        (some "nobody@example.com") (some "pw")
      = { status := 401, message := "Invalid credentials" }
    ∧ login [{ id := 1, name := "Edwin John", email := "edwinjohn@example.com"
             , password := "12345Pass", role := "staff" }]
        (some "edwinjohn@example.com") (some "wrongPass")
      = { status := 401, message := "Invalid credentials" } := by
  refine ⟨?_, ?_, ?_⟩
  · exact (login_missing_fields_and_generic_401 _ (some "edwinjohn@example.com") none).1
      (Or.inr rfl)
  · exact (((login_missing_fields_and_generic_401 _ (some "nobody@example.com")
      (some "pw")).2 (by decide) (by decide)).1 (by decide))
  · exact (((login_missing_fields_and_generic_401 _ (some "edwinjohn@example.com")
      (some "wrongPass")).2 (by decide) (by decide)).2
      { id := 1, name := "Edwin John", email := "edwinjohn@example.com"
      , password := "12345Pass", role := "staff" } (by decide) (by decide))

/-! ## Reference semantics of the response shaper

The value-level `processLoansByRole` above cannot talk about object
identity, so aliasing between the response and the store is modelled
separately: applicant objects live in a heap of numbered cells, and each
loan record holds the *address* of its applicant, exactly as a JavaScript
loan object holds a reference.  `{ ...loan }` copies the top-level record —
including the applicant *reference* — and only the `staff` branch allocates
a fresh applicant object (`{ ...loan.applicant }`). -/

/-- A heap address of an applicant object. -/
abbrev Addr := Nat

/-- A loan record in reference semantics: its scalar fields plus the address
of its applicant object. -/
structure LoanObjH where
  id : String
  status : String
  maturityDate : Int
  applicant : Addr
deriving Repr, DecidableEq

/-- The applicant heap: allocated cells and the next fresh address. -/
structure HeapSt where
  mem : List (Addr × Applicant)
  next : Addr
deriving Repr, DecidableEq

/-- Dereference an applicant address (reads of `loan.applicant`); dangling
addresses never arise for well-formed stores. -/
def HeapSt.lookupApp (h : HeapSt) (a : Addr) : Applicant :=
  match h.mem.find? (fun p => p.1 = a) with
  | some p => p.2
  | none => { name := "", email := "", totalLoan := none, other := [] }

/-- `processLoansByRole` (app.js:81-93) in reference semantics.  For each
loan, `{ ...loan }` yields a record carrying the same applicant address; in
the `staff` branch `{ ...loan.applicant }` allocates a fresh applicant cell
with the `totalLoan` key deleted and the copy points at it; in every other
branch the copied record still points at the store's applicant object. -/
def processLoansByRoleH (userRole : String) :
    HeapSt → List LoanObjH → HeapSt × List LoanObjH
  | h, [] => (h, [])
  | h, loan :: rest =>
    if userRole = "staff" then
      let app := h.lookupApp loan.applicant
      let addr := h.next
      let h1 : HeapSt := { mem := (addr, { app with totalLoan := none }) :: h.mem
                         , next := h.next + 1 }
      let (h2, rest2) := processLoansByRoleH userRole h1 rest
      (h2, { loan with applicant := addr } :: rest2)
    else
      let (h2, rest2) := processLoansByRoleH userRole h rest
      (h2, loan :: rest2)

/-- A one-cell applicant heap for the aliasing counterexample. -/
def exHeap : HeapSt :=
  { mem := [(0, { name := "A", email := "a@b.c", totalLoan := some 5000, other := [] })]
  , next := 1 }

/-- The store loan whose applicant lives at address 0. -/
def exLoanH : LoanObjH :=
  { id := "900199", status := "active", maturityDate := 0, applicant := 0 }

/-- C3 counterexample: shaping for `admin` does NOT return records whose
applicant objects are distinct from the store's — the returned record's
applicant reference is the very address the store record holds, so the
applicant sub-object is aliased, not copied. -/
theorem processLoansByRoleH_admin_aliasing_cex :
    ¬ (∀ l2 ∈ (processLoansByRoleH "admin" exHeap [exLoanH]).2,
        ∀ l ∈ [exLoanH], l2.applicant ≠ l.applicant) := by
  decide

/-- C3 amended: for any role other than `staff` (in particular `admin` and
`superAdmin`) the shaper allocates nothing and returns the records with
their applicant references intact: the heap is unchanged and each returned
record's applicant address is exactly the store record's, so the applicant
sub-objects are aliases of store state.  (Only the top-level record objects
are fresh copies.) -/
theorem processLoansByRoleH_nonstaff_aliases (userRole : String)
    (h : HeapSt) (loans : List LoanObjH)
    (hrole : userRole = "admin" ∨ userRole = "superAdmin") :
    processLoansByRoleH userRole h loans = (h, loans) := by
  have hne : (userRole = "staff") = False := by
    rcases hrole with rfl | rfl <;> simp
  induction loans with
  | nil => simp [processLoansByRoleH]
  | cons loan rest ih => simp [processLoansByRoleH, hne, ih]

/-- Witness for the amended C3 on the concrete one-loan store. -/
theorem processLoansByRoleH_nonstaff_aliases_witness :
    processLoansByRoleH "admin" exHeap [exLoanH] = (exHeap, [exLoanH]) :=
  processLoansByRoleH_nonstaff_aliases "admin" exHeap [exLoanH] (Or.inl rfl)

end LoanApi
